import Mathlib

/-!
Verification development for the cml volume-provisioning engine.

This file gives a shallow embedding of the functions in
`src/common/cryptfs.c` (device-mapper integrity/crypt stack setup and
teardown), of the bind-mount helpers in `src/daemon/c_vol.c`, and of the
command dispatch of `src/tpm2_control/tpm2d_control.c`, together with
theorems about them.

External effects (dm ioctls, reads, writes, fsync) are modelled by an
oracle environment that fixes the outcome of each external operation and
by a trace of events the code emits; the Lean definitions follow the C
control flow statement by statement.
-/

set_option maxRecDepth 16384

namespace Cml

/-! ## Constants from src/common/cryptfs.c -/

def TABLE_LOAD_RETRIES : Nat := 10
def INTEGRITY_TAG_SIZE : Nat := 32
def AUTHENC_KEY_LEN : Nat := 96
def CRYPTO_TYPE_AUTHENC : String := "capi:authenc(hmac(sha256),xts(aes))-random"
def CRYPTO_TYPE : String := "aes-xts-plain64"
def INTEGRITY_TYPE : String := "hmac(sha256)"

/-- Modelled from the spec: `CRYPTFS_FDE_KEY_LEN` comes from `cryptfs.h`,
which is not part of the sources; the spec fixes the EncryptOnly key at
64 bytes (`aes-xts-plain64`, 64-byte key), so the constant is 64. -/
def CRYPTFS_FDE_KEY_LEN : Nat := 64

def CRYPTO_HEXKEY_LEN : Nat := 2 * CRYPTFS_FDE_KEY_LEN
def INTEGRITY_HEXKEY_LEN : Nat := 2 * INTEGRITY_TAG_SIZE
def AUTHENC_HEXKEY_LEN : Nat := 2 * AUTHENC_KEY_LEN

def DEVMAPPER_BUFFER_SIZE : Nat := 4096
def DM_CRYPT_BUF_SIZE : Nat := 4096
def DM_INTEGRITY_BUF_SIZE : Nat := 4096
def ZERO_BUF_SIZE : Nat := 100 * 1024 * 1024

/-- `sizeof(struct dm_ioctl)` in the Linux dm-ioctl ABI on a 64-bit
target: 10 u32 fields, one u64, `name[128]`, `uuid[129]`, `data[7]`. -/
def sizeof_dm_ioctl : Nat := 312

/-- `sizeof(struct dm_target_spec)`: two u64, two u32, `target_type[16]`. -/
def sizeof_dm_target_spec : Nat := 40

/-- Modelled from the spec: `DM_PATH_PREFIX` comes from `dm.h`, which is
not part of the sources; the spec names the virtual device path
`/dev/mapper/<label>`. -/
def device_path (name : String) : String := "/dev/mapper/" ++ name

/-- errno value for "no such device", used by the delete paths. -/
def ENXIO : Nat := 6

/-! ## Volume modes (cryptfs_mode_t) -/

inductive Mode where
  | notImplemented
  | authenc
  | encryptOnly
  | integrityEncrypt
  | integrityOnly
deriving DecidableEq, Repr

/-! ## C string helpers -/

/-- `mem_strndup(s, n)`: copy of the first `n` bytes of `s`. -/
def strndup (s : String) (n : Nat) : String := String.mk (s.toList.take n)

/-- pointer arithmetic `s + n` on a C string: the suffix from byte `n`. -/
def strdropn (s : String) (n : Nat) : String := String.mk (s.toList.drop n)

/-- `snprintf` into a buffer with `avail` bytes of space: the stored
string is the formatted string when it fits (at most `avail - 1`
characters plus the NUL), else its truncation. -/
def snprintfTrunc (avail : Nat) (s : String) : String :=
  if s.length ≤ avail - 1 then s else String.mk (s.toList.take (avail - 1))

/-! ## Mapping-table parameter strings

`load_integrity_mapping_table` builds `"%s 0 %d J %s"` from the data
device, `INTEGRITY_TAG_SIZE` and the `extra_params` string;
`load_crypto_mapping_table` builds `"%s %s 0 %s 0 %s"` from the cipher
spec, key, data device and its `extra_params`. -/

def DM_PARAMS_MAX_INTEGRITY : Nat :=
  DM_INTEGRITY_BUF_SIZE - sizeof_dm_ioctl - sizeof_dm_target_spec

def DM_PARAMS_MAX_CRYPT : Nat :=
  DM_CRYPT_BUF_SIZE - sizeof_dm_ioctl - sizeof_dm_target_spec

def integrity_params_raw (real meta key : String) (stacked : Bool) : String :=
  real ++ " 0 " ++ toString INTEGRITY_TAG_SIZE ++ " J " ++
    (if stacked then "1 meta_device:" ++ meta
     else "3 meta_device:" ++ meta ++ " internal_hash:" ++ INTEGRITY_TYPE ++ ":" ++ key
          ++ " allow_discards")

/-- The parameter string placed into the integrity dm-ioctl buffer. -/
def load_integrity_params (real meta key : String) (stacked : Bool) : String :=
  snprintfTrunc DM_PARAMS_MAX_INTEGRITY (integrity_params_raw real meta key stacked)

def crypto_params_raw (real key : String) (integrity : Bool) : String :=
  (if integrity then CRYPTO_TYPE_AUTHENC else CRYPTO_TYPE) ++ " " ++ key ++ " 0 " ++ real
    ++ " 0 " ++
    (if integrity then "1 integrity:" ++ toString INTEGRITY_TAG_SIZE ++ ":aead"
     else "1 allow_discards")

/-- The parameter string placed into the crypt dm-ioctl buffer. -/
def load_crypto_params (real key : String) (integrity : Bool) : String :=
  snprintfTrunc DM_PARAMS_MAX_CRYPT (crypto_params_raw real key integrity)

/-! ## Target descriptor layout (claim C7)

Both loaders advance a pointer past the NUL of the parameter string and
then execute `(char *)(((unsigned long)p + 7) & ~8)`; `~8` on a 64-bit
unsigned is `2^64 - 9`, i.e. only bit 3 is cleared.  `tgt->next` is the
offset of the resulting address from the buffer start. -/

def align8bug (p : Nat) : Nat := (p + 7) &&& (2 ^ 64 - 9)

/-- Offset stored in `tgt->next`, for a buffer at address `bufAddr` and a
parameter string of `paramsLen` bytes placed directly after the
`dm_ioctl` header and the `dm_target_spec`. -/
def tgt_next (bufAddr paramsLen : Nat) : Nat :=
  align8bug (bufAddr + sizeof_dm_ioctl + sizeof_dm_target_spec + paramsLen + 1) - bufAddr

structure DmTargetSpec where
  sector_start : Nat
  length : Nat
  target_type : String
  next : Nat
deriving DecidableEq, Repr

/-- The `dm_target_spec` written by `load_integrity_mapping_table` for a
buffer at `bufAddr`. -/
def integrity_target (bufAddr : Nat) (real meta key : String) (stacked : Bool)
    (fs_size : Nat) : DmTargetSpec :=
  { sector_start := 0
    length := fs_size
    target_type := "integrity"
    next := tgt_next bufAddr (load_integrity_params real meta key stacked).length }

/-! ## Integrity superblock probe (get_provided_data_sectors) -/

/-- The 8 magic bytes `"integrt"` with its terminating NUL; `strcmp`
against the 8 bytes read succeeds exactly when they equal this list. -/
def integrtTag : List Nat := [105, 110, 116, 101, 103, 114, 116, 0]

/-- little-endian value of a byte list (a short read leaves the
remaining high-order bytes of the zero-initialised u64 at zero). -/
def leU64 : List Nat → Nat
  | [] => 0
  | b :: bs => b + 256 * leU64 bs

/-- `get_provided_data_sectors(real_blk_name)`.  `content` is the
readable byte content of the device, `none` when `open` fails.  Returns
0 when open or the 8-byte magic read fails, 1 when no integrity
superblock is present, and otherwise the u64 read at offset 16 (the C
returns the partially-filled zero-initialised value on a short or zero
second read, which coincides with the little-endian value of the bytes
actually present). -/
def get_provided_data_sectors (content : Option (List Nat)) : Nat :=
  match content with
  | none => 0
  | some bytes =>
    if bytes.length < 8 then 0
    else if bytes.take 8 ≠ integrtTag then 1
    else leU64 ((bytes.drop 16).take 8)

/-! ## Oracle environment and event traces -/

/-- Outcome of one of the block-device creation helpers:
success, failure before `DM_DEV_CREATE` succeeded, or failure in a later
step (table load / resume / node creation) after the dm device already
exists under its name. -/
inductive CreateOutcome where
  | ok
  | failNoCreate
  | failAfterCreate
deriving DecidableEq, Repr

structure Env where
  dataOpenOk : Bool
  sectorSize : Int
  byteSize : Nat
  integrityCreate : CreateOutcome
  cryptoCreate : CreateOutcome
  callocOk : Bool
  zeroOpenOk : Bool
  zeroWriteOk : Bool
  fsyncOk : Bool
  fallbackOpenOk : Bool
  fallbackWriteOk : Bool
deriving DecidableEq, Repr

inductive Ev where
  | devCreate (name : String) (ttype : String)
  | tableLoad (name : String) (ttype : String) (params : String)
  | devRemove (name : String)
  | zeroWrite (dev : String) (bytes : Nat) (direct : Bool)
  | fsyncEv (dev : String)
deriving DecidableEq, Repr

def createdNames (tr : List Ev) : List String :=
  tr.filterMap fun e => match e with
    | .devCreate n _ => some n
    | _ => none

def removedNames (tr : List Ev) : List String :=
  tr.filterMap fun e => match e with
    | .devRemove n => some n
    | _ => none

/-- A dm device with this name is visible after the trace: it was
created and no `DM_DEV_REMOVE` was issued for its name. -/
def devExistsAfter (tr : List Ev) (n : String) : Bool :=
  (createdNames tr).contains n && !((removedNames tr).contains n)

/-- parameter strings of the crypt table loads occurring in a trace. -/
def cryptTableParams (tr : List Ev) : List String :=
  tr.filterMap fun e => match e with
    | .tableLoad _ "crypt" p => some p
    | _ => none

def sumZeroBytes (tr : List Ev) : Nat :=
  (tr.filterMap fun e => match e with
    | .zeroWrite _ n _ => some n
    | _ => none).sum

def noFsync (tr : List Ev) : Bool :=
  tr.all fun e => match e with
    | .fsyncEv _ => false
    | _ => true

/-! ## create_integrity_blk_dev / create_crypto_blk_dev -/

/-- `create_integrity_blk_dev`: `DM_DEV_CREATE`, then
`load_integrity_mapping_table` (which rejects a standalone call without
a key before formatting anything), then resume and node creation.  The
oracle decides in which phase the helper fails. -/
def create_integrity_blk_dev (out : CreateOutcome) (real meta : String)
    (key : Option String) (name : String) (stacked : Bool) : Option String × List Ev :=
  match out with
  | .failNoCreate => (none, [])
  | .failAfterCreate => (none, [.devCreate name "integrity"])
  | .ok =>
    if ¬ stacked ∧ key.isNone then (none, [.devCreate name "integrity"])
    else (some (device_path name),
      [.devCreate name "integrity",
       .tableLoad name "integrity" (load_integrity_params real meta (key.getD "(null)") stacked)])

/-- `create_crypto_blk_dev`: `DM_DEV_CREATE`, `load_crypto_mapping_table`,
resume, node creation.  glibc renders a NULL `%s` argument as
`"(null)"`. -/
def create_crypto_blk_dev (out : CreateOutcome) (real : Option String)
    (key : Option String) (name : String) (integrity : Bool) : Option String × List Ev :=
  match out with
  | .failNoCreate => (none, [])
  | .failAfterCreate => (none, [.devCreate name "crypt"])
  | .ok =>
    (some (device_path name),
     [.devCreate name "crypt",
      .tableLoad name "crypt" (load_crypto_params (real.getD "(null)") (key.getD "(null)") integrity)])

/-! ## cryptfs_write_zeros -/

/-- `cryptfs_write_zeros(crypto_blkdev, size)`: allocate a large zero
buffer, open the device, write `size` bytes (the C loop writes
`MIN(remaining, ZERO_BUF_SIZE)` per iteration until `size` bytes are
written; the trace records the total), and `fsync`.  Returns 0 on
success, -1 on any failure. -/
def cryptfs_write_zeros (env : Env) (dev : Option String) (size : Nat) : Int × List Ev :=
  match dev with
  | none => (-1, [])
  | some d =>
    if ¬ env.callocOk then (-1, [])
    else if ¬ env.zeroOpenOk then (-1, [])
    else if ¬ env.zeroWriteOk then (-1, [])
    else if ¬ env.fsyncOk then (-1, [.zeroWrite d size false])
    else (0, [.zeroWrite d size false, .fsyncEv d])

/-! ## cryptfs_setup_volume_new -/

/-- The mode `switch` of `cryptfs_setup_volume_new`: returns
`(crypto_key_len, integrity_key_len, encrypt, integrity, stacked)` when
the parameters validate, `none` when the function returns NULL from the
switch (missing meta device, or a strict key-length mismatch). -/
def validate (mode : Mode) (keyLen : Nat) (metaGiven : Bool) :
    Option (Nat × Nat × Bool × Bool × Bool) :=
  match mode with
  | .notImplemented => none
  | .authenc =>
    if metaGiven then some (keyLen, 0, true, true, true) else none
  | .encryptOnly => some (keyLen, 0, true, false, false)
  | .integrityEncrypt =>
    if metaGiven then
      if keyLen = CRYPTO_HEXKEY_LEN + INTEGRITY_HEXKEY_LEN then
        some (CRYPTO_HEXKEY_LEN, INTEGRITY_HEXKEY_LEN, true, true, false)
      else none
    else none
  | .integrityOnly =>
    if keyLen = INTEGRITY_HEXKEY_LEN then
      some (0, INTEGRITY_HEXKEY_LEN, false, true, false)
    else none

/-- Hex key length each mode expects (the length the mode's switch case
compares `strlen(key)` against). -/
def expectedHexLen : Mode → Nat
  | .notImplemented => 0
  | .authenc => AUTHENC_HEXKEY_LEN
  | .encryptOnly => CRYPTO_HEXKEY_LEN
  | .integrityEncrypt => CRYPTO_HEXKEY_LEN + INTEGRITY_HEXKEY_LEN
  | .integrityOnly => INTEGRITY_HEXKEY_LEN

/-- Modes whose switch case rejects any other key length
(`IF_TRUE_RETVAL(strlen(key) != ..., NULL)`); the AuthEnc and
EncryptOnly cases only log a warning and keep `strlen(key)`. -/
def strictKeyLen : Mode → Bool
  | .integrityEncrypt => true
  | .integrityOnly => true
  | _ => false

/-- Content visible to `get_provided_data_sectors(meta_blkdev)`: NULL
meta pointer means `open(NULL)` fails. -/
def metaEff (meta : Option String) (mc : Option (List Nat)) : Option (List Nat) :=
  if meta.isSome then mc else none

structure SetupResult where
  ret : Option String
  trace : List Ev
  initialFormat : Bool
deriving DecidableEq, Repr

/-- The `error:` label of `cryptfs_setup_volume_new`: it calls
`delete_integrity_blk_dev(label)` when `integrity_blkdev` is set and
`delete_crypto_blk_dev(-1, label)` when `crypto_blkdev` is set — both
with `label`, not with the `<label>-integrity` name the integrity device
was created under. -/
def errorExit (label : String) (ifmt : Bool) (idev cdev : Option String)
    (tr : List Ev) : SetupResult :=
  ⟨none,
   tr ++ (if idev.isSome then [.devRemove label] else [])
      ++ (if cdev.isSome then [.devRemove label] else []),
   ifmt⟩

/-- Body of `cryptfs_setup_volume_new` after parameter validation.  The C
initialises `initial_format = false` and assigns
`get_provided_data_sectors(meta_blkdev) != fs_size` inside
`if (integrity)`; this is written here as the equivalent
`integrity && (probe != fs_size)`.  The crypt device is stacked on
`meta_blkdev ? integrity_blkdev : real_blkdev`, and the orchestrator
passes its `stacked` flag as the crypt builder's `integrity`
argument. -/
def setupBody (env : Env) (label real key : String) (meta : Option String)
    (mc : Option (List Nat)) (ckl ikl : Nat) (encrypt integrity stacked : Bool) :
    SetupResult :=
  let crypto_key : Option String := if 0 < ckl then some (strndup key ckl) else none
  let integrity_key : Option String :=
    if 0 < ikl then some (strndup (strdropn key ckl) ikl) else none
  if ¬ env.dataOpenOk then ⟨none, [], false⟩
  else if ¬ (0 < env.sectorSize) then ⟨none, [], false⟩
  else
    let fs_size := env.byteSize / env.sectorSize.toNat
    if fs_size = 0 then ⟨none, [], false⟩
    else
      let initial_format := integrity && (get_provided_data_sectors (metaEff meta mc) != fs_size)
      let ic := if integrity then
          create_integrity_blk_dev env.integrityCreate real (meta.getD "(null)")
            integrity_key (label ++ "-integrity") stacked
        else (none, [])
      if integrity && ic.1.isNone then errorExit label initial_format ic.1 none ic.2
      else
        let cc := if encrypt then
            create_crypto_blk_dev env.cryptoCreate (if meta.isSome then ic.1 else some real)
              crypto_key label stacked
          else (ic.1, [])
        if encrypt && cc.1.isNone then errorExit label initial_format ic.1 none (ic.2 ++ cc.2)
        else
          let zz := if initial_format then cryptfs_write_zeros env cc.1 (fs_size * 512)
            else (0, [])
          if initial_format && (zz.1 != 0) then
            if ¬ env.fallbackOpenOk then
              errorExit label initial_format ic.1 cc.1 (ic.2 ++ cc.2 ++ zz.2)
            else if ¬ env.fallbackWriteOk then
              errorExit label initial_format ic.1 cc.1 (ic.2 ++ cc.2 ++ zz.2)
            else
              ⟨cc.1,
               ic.2 ++ cc.2 ++ zz.2
                  ++ List.replicate (fs_size / 8) (.zeroWrite (cc.1.getD "") 4096 true),
               initial_format⟩
          else ⟨cc.1, ic.2 ++ cc.2 ++ zz.2, initial_format⟩

/-- `cryptfs_setup_volume_new(label, real_blkdev, key, meta_blkdev, mode)`.
`mc` is the byte content the metadata device would yield to the
superblock probe. -/
def cryptfs_setup_volume_new (env : Env) (label real key : Option String)
    (meta : Option String) (mc : Option (List Nat)) (mode : Mode) : SetupResult :=
  match label, real, key with
  | some lab, some r, some k =>
    match mode with
    | .notImplemented => ⟨some r, [], false⟩
    | m =>
      match validate m k.length meta.isSome with
      | none => ⟨none, [], false⟩
      | some (ckl, ikl, encrypt, integrity, stacked) =>
        setupBody env lab r k meta mc ckl ikl encrypt integrity stacked
  | _, _, _ => ⟨none, [], false⟩

/-! ## delete paths (cryptfs_delete_blk_dev) -/

/-- `delete_crypto_blk_dev`: on ioctl failure it stores the (positive)
errno in `ret` and returns it, so `ENXIO` (and in fact any ioctl errno)
does not surface as a negative failure; only a failed open of the
control device returns -1.  `rm` is the `DM_DEV_REMOVE` outcome for
`name` (`none` = success, `some e` = failure with errno `e`); the second
component lists the names a remove was attempted for. -/
def delete_crypto_blk_dev (openOk : Bool) (rm : Option Nat) (name : String) :
    Int × List String :=
  if ¬ openOk then (-1, [])
  else match rm with
    | none => (0, [name])
    | some e => (Int.ofNat e, [name])

/-- `delete_integrity_blk_dev`: same shape as the crypt variant. -/
def delete_integrity_blk_dev (openOk : Bool) (rm : Option Nat) (name : String) :
    Int × List String :=
  if ¬ openOk then (-1, [])
  else match rm with
    | none => (0, [name])
    | some e => (Int.ofNat e, [name])

/-- The mode switch of `cryptfs_delete_blk_dev`; the default case
(`NOT_IMPLEMENTED` included) returns -1. -/
def mode_delete_flags : Mode → Option (Bool × Bool)
  | .authenc => some (true, true)
  | .integrityEncrypt => some (true, true)
  | .encryptOnly => some (true, false)
  | .integrityOnly => some (false, true)
  | .notImplemented => none

/-- `cryptfs_delete_blk_dev(fd, name, mode)`: crypt device first, then
the integrity device under `<name>-integrity`; a negative return of
either delete helper aborts with -1.  `rm` gives the `DM_DEV_REMOVE`
outcome per name. -/
def cryptfs_delete_blk_dev (openOk : Bool) (rm : String → Option Nat)
    (name : String) (mode : Mode) : Int × List String :=
  match mode_delete_flags mode with
  | none => (-1, [])
  | some (encrypt, integrity) =>
    let r1 := if encrypt then delete_crypto_blk_dev openOk (rm name) name else (0, [])
    if r1.1 < 0 then (-1, r1.2)
    else
      let r2 := if integrity then
          delete_integrity_blk_dev openOk (rm (name ++ "-integrity")) (name ++ "-integrity")
        else (0, [])
      if r2.1 < 0 then (-1, r1.2 ++ r2.2)
      else (0, r1.2 ++ r2.2)

/-! ## Bind mounts (src/daemon/c_vol.c) -/

def MS_RDONLY : Nat := 1
def MS_REMOUNT : Nat := 32
def MS_BIND : Nat := 4096

structure FsEnv where
  mkdirSrcOk : Bool
  mkdirDstOk : Bool
  touchSrcOk : Bool
  touchDstOk : Bool
  mountOk : Bool
  remountOk : Bool
  umountOk : Bool
deriving DecidableEq, Repr

inductive MEv where
  | bindMount (src dst : String)
  | remountRo (dst : String) (ok : Bool)
  | unmountEv (dst : String)
deriving DecidableEq, Repr

/-- `c_vol_mount_file_bind(src, dst, flags)`: requires `MS_BIND`; creates
the parent directories and touches both endpoint files; bind-mounts; for
a read-only request performs the `MS_REMOUNT|MS_RDONLY` second pass but
only logs its failure and still returns 0. -/
def c_vol_mount_file_bind (env : FsEnv) (src dst : String) (flags : Nat) :
    Int × List MEv :=
  if flags &&& MS_BIND = 0 then (-1, [])
  else if ¬ env.mkdirSrcOk then (-1, [])
  else if ¬ env.mkdirDstOk then (-1, [])
  else if ¬ env.touchSrcOk then (-1, [])
  else if ¬ env.touchDstOk then (-1, [])
  else if ¬ env.mountOk then (-1, [])
  else if flags &&& MS_RDONLY ≠ 0 then
    (0, [.bindMount src dst, .remountRo dst env.remountOk])
  else (0, [.bindMount src dst])

/-- `c_vol_mount_dir_bind(src, dst, flags)`: requires `MS_BIND`; a failed
`dir_mkdir_p` is only debug-logged; bind-mounts; on a failed read-only
remount pass it unmounts the destination and returns -1. -/
def c_vol_mount_dir_bind (env : FsEnv) (src dst : String) (flags : Nat) :
    Int × List MEv :=
  if flags &&& MS_BIND = 0 then (-1, [])
  else if ¬ env.mountOk then (-1, [])
  else if flags &&& MS_RDONLY ≠ 0 then
    if env.remountOk then (0, [.bindMount src dst, .remountRo dst true])
    else (-1, [.bindMount src dst, .remountRo dst false, .unmountEv dst])
  else (0, [.bindMount src dst])

/-! ## TPM control CLI (src/tpm2_control/tpm2d_control.c) -/

/-- Protobuf command codes set explicitly by the dispatch chain of
`main`; the `CONTROLLER_TO_TPM__INIT` default is modelled as `none`. -/
inductive TpmCode where
  | dmcryptSetup
  | exitDaemon
  | randomReq
  | clear
  | changeOwnerPwd
  | dmcryptLock
  | dmcryptReset
deriving DecidableEq, Repr

structure CliResult where
  usage : Bool
  sent : Option (Option TpmCode × Bool)
  exitCode : Int
deriving DecidableEq, Repr

/-- `strcasecmp(a, b) == 0` for the ASCII command words involved:
byte-wise comparison after lowering the case of each character. -/
def strcaseEq (a b : String) : Bool :=
  a.data.map Char.toLower == b.data.map Char.toLower

/-- `send_message(socket_file, msg, has_response)` followed by
`return 0`: exit -3 on connect failure, -4 on send failure, -5 on a
missing response when one is expected; otherwise the message is sent and
`main` returns 0. -/
def send_message_model (connectOk sendOk recvOk : Bool) (code : Option TpmCode)
    (hasResponse : Bool) : CliResult :=
  if ¬ connectOk then ⟨false, none, -3⟩
  else if ¬ sendOk then ⟨false, none, -4⟩
  else if hasResponse ∧ ¬ recvOk then ⟨false, none, -5⟩
  else ⟨false, some (code, hasResponse), 0⟩

/-- `main` of tpm2d_control after global option parsing: socket existence
check (exit -2), command-argument presence check (usage, exit -1), then
the case-insensitive dispatch chain.  For a matched command the message
code and `has_response` are set as in the source (branches that consume
a mandatory extra argument print usage when it is missing; their
argument payloads are not tracked).  A command matching none of the
seven known words falls through to the `send_message` label with the
zero-initialised message. -/
def tpm2d_control_main (socketExists connectOk sendOk recvOk : Bool)
    (args : List String) : CliResult :=
  if ¬ socketExists then ⟨false, none, -2⟩
  else match args with
    | [] => ⟨true, none, -1⟩
    | command :: rest =>
      if strcaseEq command "dmcrypt_setup" then
        if rest.isEmpty then ⟨true, none, -1⟩
        else send_message_model connectOk sendOk recvOk (some .dmcryptSetup) true
      else if strcaseEq command "exit" then
        send_message_model connectOk sendOk recvOk (some .exitDaemon) false
      else if strcaseEq command "getrandom" then
        if rest.isEmpty then ⟨true, none, -1⟩
        else send_message_model connectOk sendOk recvOk (some .randomReq) true
      else if strcaseEq command "clear" then
        send_message_model connectOk sendOk recvOk (some .clear) true
      else if strcaseEq command "dmcrypt_lock" then
        send_message_model connectOk sendOk recvOk (some .dmcryptLock) true
      else if strcaseEq command "change_owner" then
        send_message_model connectOk sendOk recvOk (some .changeOwnerPwd) true
      else if strcaseEq command "dmcrypt_reset" then
        send_message_model connectOk sendOk recvOk (some .dmcryptReset) true
      else send_message_model connectOk sendOk recvOk none false

def knownCommands : List String :=
  ["dmcrypt_setup", "exit", "getrandom", "clear", "dmcrypt_lock", "change_owner",
   "dmcrypt_reset"]

/-! ## Concrete instances used by the evaluation theorems -/

/-- hex key strings of the lengths the modes expect -/
def k192 : String := String.mk (List.replicate 192 'a')

def k128 : String := String.mk (List.replicate 128 'a')

def k64 : String := String.mk (List.replicate 64 'a')

/-- oracle where every external operation succeeds; the data device is
51200 bytes of 512-byte sectors, i.e. 100 sectors. -/
def okEnv : Env :=
  ⟨true, 512, 51200, .ok, .ok, true, true, true, true, true, true⟩

/-- crypt table load fails after `DM_DEV_CREATE` succeeded. -/
def c1Env : Env := { okEnv with cryptoCreate := .failAfterCreate }

/-- the large zero-buffer allocation fails, forcing the fallback loop. -/
def c5Env : Env := { okEnv with callocOk := false }

def c1run : SetupResult :=
  cryptfs_setup_volume_new c1Env (some "vol") (some "/dev/data") (some k192)
    (some "/dev/meta") (some []) .integrityEncrypt

def c5run : SetupResult :=
  cryptfs_setup_volume_new c5Env (some "vol") (some "/dev/data") (some k192)
    (some "/dev/meta") (some []) .authenc

def c6run : SetupResult :=
  cryptfs_setup_volume_new okEnv (some "vol") (some "/dev/data") (some k128)
    (some "/dev/meta") (some []) .encryptOnly

/-! ## Helper lemmas -/

theorem lit_merge (a b c : String) (h : a ++ b = c) (x : String) :
    a ++ (b ++ x) = c ++ x := by
  rw [← String.append_assoc, h]

/-! ## Claims -/

/-- C1: the spec requires that a setup_volume failure after partial
construction removes the crypt device `<label>` and the integrity
device `<label>-integrity`, so that neither label remains.  Evaluating
the code on a run where the integrity device is built and the crypt
table load then fails shows the error path issues `DM_DEV_REMOVE` only
for the name `vol` (the rollback passes `label` where the
`<label>-integrity` name was intended), so the device `vol-integrity`
is still present after the failed call. -/
theorem c1_rollback_leaves_integrity_device :
    c1run.ret = none
      ∧ devExistsAfter c1run.trace "vol-integrity" = true
      ∧ devExistsAfter c1run.trace "vol" = false
      ∧ removedNames c1run.trace = ["vol"] := by decide

/-- C7: evaluating the loader layout at a concrete input.  For the
stacked integrity table over data device `"d"` and meta device `"mm"`
(parameter string of 25 bytes) in an 8-byte-aligned buffer,
`sector_start` and `length` are as claimed, but the stored next-target
offset is 385, which is ≡ 1 (mod 8): `(p + 7) & ~8` clears only bit 3
and never produces the 8-byte alignment the claim (and the code's own
comment) require. -/
theorem c7_next_offset_misaligned :
    (integrity_target 0 "d" "mm" "" true 100).sector_start = 0
      ∧ (integrity_target 0 "d" "mm" "" true 100).length = 100
      ∧ (load_integrity_params "d" "mm" "" true).length = 25
      ∧ (integrity_target 0 "d" "mm" "" true 100).next = 385
      ∧ (integrity_target 0 "d" "mm" "" true 100).next % 8 = 1 := by decide

/-- C2: the parameter string placed in the integrity dm-ioctl buffer is
byte-for-byte `"<data_dev> 0 32 J 3 meta_device:<meta_dev>
internal_hash:hmac(sha256):<hex_key> allow_discards"` for standalone
mode and `"<data_dev> 0 32 J 1 meta_device:<meta_dev>"` for stacked
mode, whenever the formatted string fits the ioctl buffer. -/
theorem c2_integrity_table_params (real meta key : String)
    (h1 : (integrity_params_raw real meta key false).length ≤ DM_PARAMS_MAX_INTEGRITY - 1)
    (h2 : (integrity_params_raw real meta key true).length ≤ DM_PARAMS_MAX_INTEGRITY - 1) :
    load_integrity_params real meta key false
      = real ++ " 0 32 J 3 meta_device:" ++ meta ++ " internal_hash:hmac(sha256):" ++ key
          ++ " allow_discards"
    ∧ load_integrity_params real meta key true
      = real ++ " 0 32 J 1 meta_device:" ++ meta := by
  constructor
  · have e1 : load_integrity_params real meta key false = integrity_params_raw real meta key false :=
      if_pos h1
    rw [e1]
    show real ++ " 0 " ++ "32" ++ " J "
        ++ ("3 meta_device:" ++ meta ++ " internal_hash:" ++ "hmac(sha256)" ++ ":" ++ key
            ++ " allow_discards") = _
    simp only [String.append_assoc]
    rw [lit_merge " internal_hash:" "hmac(sha256)" " internal_hash:hmac(sha256)" rfl,
        lit_merge " internal_hash:hmac(sha256)" ":" " internal_hash:hmac(sha256):" rfl,
        lit_merge " J " "3 meta_device:" " J 3 meta_device:" rfl,
        lit_merge "32" " J 3 meta_device:" "32 J 3 meta_device:" rfl,
        lit_merge " 0 " "32 J 3 meta_device:" " 0 32 J 3 meta_device:" rfl]
  · have e2 : load_integrity_params real meta key true = integrity_params_raw real meta key true :=
      if_pos h2
    rw [e2]
    show real ++ " 0 " ++ "32" ++ " J " ++ ("1 meta_device:" ++ meta) = _
    simp only [String.append_assoc]
    rw [lit_merge " J " "1 meta_device:" " J 1 meta_device:" rfl,
        lit_merge "32" " J 1 meta_device:" "32 J 1 meta_device:" rfl,
        lit_merge " 0 " "32 J 1 meta_device:" " 0 32 J 1 meta_device:" rfl]

/-- C2 witness: the theorem applied at concrete devices and key. -/
theorem c2_integrity_table_params_witness :
    load_integrity_params "/dev/a" "/dev/b" "00ff" false
      = "/dev/a" ++ " 0 32 J 3 meta_device:" ++ "/dev/b" ++ " internal_hash:hmac(sha256):"
          ++ "00ff" ++ " allow_discards"
    ∧ load_integrity_params "/dev/a" "/dev/b" "00ff" true
      = "/dev/a" ++ " 0 32 J 1 meta_device:" ++ "/dev/b" :=
  c2_integrity_table_params "/dev/a" "/dev/b" "00ff" (by decide) (by decide)

/-- C3: the crypt table parameter string is
`"aes-xts-plain64 <hex_key> 0 <data_dev> 0 1 allow_discards"` without
the AEAD flag and
`"capi:authenc(hmac(sha256),xts(aes))-random <hex_key> 0 <data_dev> 0 1 integrity:32:aead"`
with it (whenever the string fits the buffer); and the orchestrator
passes its `stacked` flag to the crypt builder unchanged, so the AuthEnc
run loads the AEAD string over the integrity device while the
EncryptOnly and IntegrityEncrypt runs load the plain string. -/
theorem c3_crypt_table_params (real key : String)
    (h1 : (crypto_params_raw real key false).length ≤ DM_PARAMS_MAX_CRYPT - 1)
    (h2 : (crypto_params_raw real key true).length ≤ DM_PARAMS_MAX_CRYPT - 1) :
    load_crypto_params real key false
      = "aes-xts-plain64 " ++ key ++ " 0 " ++ real ++ " 0 1 allow_discards"
    ∧ load_crypto_params real key true
      = "capi:authenc(hmac(sha256),xts(aes))-random " ++ key ++ " 0 " ++ real
          ++ " 0 1 integrity:32:aead"
    ∧ cryptTableParams (cryptfs_setup_volume_new okEnv (some "vol") (some "/dev/data")
          (some k192) (some "/dev/meta") (some []) .authenc).trace
      = [load_crypto_params "/dev/mapper/vol-integrity" k192 true]
    ∧ cryptTableParams (cryptfs_setup_volume_new okEnv (some "vol") (some "/dev/data")
          (some k128) none none .encryptOnly).trace
      = [load_crypto_params "/dev/data" k128 false]
    ∧ cryptTableParams (cryptfs_setup_volume_new okEnv (some "vol") (some "/dev/data")
          (some k192) (some "/dev/meta") (some []) .integrityEncrypt).trace
      = [load_crypto_params "/dev/mapper/vol-integrity" (strndup k192 128) false] := by
  refine ⟨?_, ?_, by decide, by decide, by decide⟩
  · have e1 : load_crypto_params real key false = crypto_params_raw real key false :=
      if_pos h1
    rw [e1]
    show "aes-xts-plain64" ++ " " ++ key ++ " 0 " ++ real ++ " 0 " ++ "1 allow_discards" = _
    simp only [String.append_assoc]
    rw [show (" 0 " ++ "1 allow_discards" : String) = " 0 1 allow_discards" from rfl,
        lit_merge "aes-xts-plain64" " " "aes-xts-plain64 " rfl]
  · have e2 : load_crypto_params real key true = crypto_params_raw real key true :=
      if_pos h2
    rw [e2]
    show "capi:authenc(hmac(sha256),xts(aes))-random" ++ " " ++ key ++ " 0 " ++ real ++ " 0 "
        ++ ("1 integrity:" ++ "32" ++ ":aead") = _
    simp only [String.append_assoc]
    rw [show ("32" ++ ":aead" : String) = "32:aead" from rfl,
        show ("1 integrity:" ++ "32:aead" : String) = "1 integrity:32:aead" from rfl,
        show (" 0 " ++ "1 integrity:32:aead" : String) = " 0 1 integrity:32:aead" from rfl,
        lit_merge "capi:authenc(hmac(sha256),xts(aes))-random" " "
          "capi:authenc(hmac(sha256),xts(aes))-random " rfl]

/-- C3 witness: the theorem applied at a concrete device and key. -/
theorem c3_crypt_table_params_witness :
    load_crypto_params "/dev/a" "00ff" false
      = "aes-xts-plain64 " ++ "00ff" ++ " 0 " ++ "/dev/a" ++ " 0 1 allow_discards"
    ∧ load_crypto_params "/dev/a" "00ff" true
      = "capi:authenc(hmac(sha256),xts(aes))-random " ++ "00ff" ++ " 0 " ++ "/dev/a"
          ++ " 0 1 integrity:32:aead" :=
  ⟨(c3_crypt_table_params "/dev/a" "00ff" (by decide) (by decide)).1,
   (c3_crypt_table_params "/dev/a" "00ff" (by decide) (by decide)).2.1⟩

/-- C5 counterexample: with first-use detected and the large zero-buffer
allocation failing, setup_volume succeeds through the 4096-byte O_DIRECT
fallback loop, and the whole run contains no fsync at all — refuting
"in either case the initialization ends with a successful fsync of the
device before setup_volume returns success". -/
theorem c5_fallback_no_fsync_counterexample :
    c5run.ret.isSome = true ∧ c5run.initialFormat = true
      ∧ noFsync c5run.trace = true := by decide

/-- C5 amended: whenever first-use is detected, the primary pass writes
zeros through the outer crypt device covering the full payload of
`sectors * 512` bytes and ends with a successful fsync; when that pass
fails (for example, allocation of the large zero buffer fails) setup
falls back to a loop of `sectors / 8` O_DIRECT 4096-byte writes and
returns success without issuing any fsync. -/
theorem c5_amended_first_use_zeroing (mc : Option (List Nat))
    (hm : get_provided_data_sectors mc ≠ 100) :
    ((cryptfs_setup_volume_new okEnv (some "vol") (some "/dev/data") (some k192)
        (some "/dev/meta") mc .authenc).ret.isSome = true
     ∧ (cryptfs_setup_volume_new okEnv (some "vol") (some "/dev/data") (some k192)
        (some "/dev/meta") mc .authenc).initialFormat = true
     ∧ sumZeroBytes (cryptfs_setup_volume_new okEnv (some "vol") (some "/dev/data") (some k192)
        (some "/dev/meta") mc .authenc).trace = 100 * 512
     ∧ (cryptfs_setup_volume_new okEnv (some "vol") (some "/dev/data") (some k192)
        (some "/dev/meta") mc .authenc).trace.getLast? = some (.fsyncEv "/dev/mapper/vol"))
    ∧ ((cryptfs_setup_volume_new c5Env (some "vol") (some "/dev/data") (some k192)
        (some "/dev/meta") mc .authenc).ret.isSome = true
     ∧ noFsync (cryptfs_setup_volume_new c5Env (some "vol") (some "/dev/data") (some k192)
        (some "/dev/meta") mc .authenc).trace = true
     ∧ ((cryptfs_setup_volume_new c5Env (some "vol") (some "/dev/data") (some k192)
        (some "/dev/meta") mc .authenc).trace.filterMap fun e => match e with
          | .zeroWrite _ n true => some n
          | _ => none) = List.replicate (100 / 8) 4096) := by
  have hk : k192.length = 192 := by decide
  have hb : (get_provided_data_sectors (metaEff (some "/dev/meta") mc) != 100) = true := by
    simp [metaEff, bne_iff_ne, hm]
  simp [cryptfs_setup_volume_new, validate, setupBody, okEnv, c5Env, hk, hb,
    create_integrity_blk_dev, create_crypto_blk_dev, cryptfs_write_zeros, errorExit,
    device_path, sumZeroBytes, noFsync, List.getLast?]

/-- C5 amended witness: the theorem applied to an uninitialised (empty)
metadata device. -/
theorem c5_amended_first_use_zeroing_witness :
    get_provided_data_sectors (some []) ≠ 100
      ∧ noFsync (cryptfs_setup_volume_new c5Env (some "vol") (some "/dev/data") (some k192)
          (some "/dev/meta") (some []) .authenc).trace = true :=
  ⟨by decide, (c5_amended_first_use_zeroing (some []) (by decide)).2.2.1⟩

/-- C6 counterexample: the claim quantifies over every setup_volume call
where a meta device is given.  With mode EncryptOnly and a meta device
whose probed `provided_data_sectors` (0, no superblock) differs from the
computed sector count (100), setup succeeds and first-use is *not*
declared: the code computes the probe only inside `if (integrity)`. -/
theorem c6_first_use_iff_counterexample :
    c6run.ret.isSome = true ∧ c6run.initialFormat = false
      ∧ get_provided_data_sectors (some []) ≠ 51200 / 512 := by decide

/-- C6 amended: first-use is declared iff the mode includes integrity
and the `provided_data_sectors` value probed from the meta device
differs from the computed sector count; for EncryptOnly (and
NotImplemented) first-use is never declared, even when a meta device is
given. -/
theorem c6_amended_first_use_detection (key : String) (mc : Option (List Nat))
    (hk192 : key.length = 192) :
    ((cryptfs_setup_volume_new okEnv (some "vol") (some "/dev/data") (some key)
        (some "/dev/meta") mc .authenc).initialFormat
      = (get_provided_data_sectors mc != 100))
    ∧ ((cryptfs_setup_volume_new okEnv (some "vol") (some "/dev/data") (some key)
        (some "/dev/meta") mc .integrityEncrypt).initialFormat
      = (get_provided_data_sectors mc != 100))
    ∧ ((cryptfs_setup_volume_new okEnv (some "vol") (some "/dev/data") (some k64)
        (some "/dev/meta") mc .integrityOnly).initialFormat
      = (get_provided_data_sectors mc != 100))
    ∧ ((cryptfs_setup_volume_new okEnv (some "vol") (some "/dev/data") (some k64)
        none none .integrityOnly).initialFormat = true)
    ∧ ((cryptfs_setup_volume_new okEnv (some "vol") (some "/dev/data") (some key)
        (some "/dev/meta") mc .encryptOnly).initialFormat = false)
    ∧ ((cryptfs_setup_volume_new okEnv (some "vol") (some "/dev/data") (some key)
        (some "/dev/meta") mc .notImplemented).initialFormat = false) := by
  have h64 : k64.length = 64 := by decide
  refine ⟨?_, ?_, ?_, by decide, ?_, by rfl⟩ <;>
  · cases hb : (get_provided_data_sectors mc != 100) <;>
      simp [cryptfs_setup_volume_new, validate, setupBody, okEnv, hk192, h64, metaEff, hb,
        create_integrity_blk_dev, create_crypto_blk_dev, cryptfs_write_zeros, errorExit,
        device_path, CRYPTO_HEXKEY_LEN, INTEGRITY_HEXKEY_LEN, CRYPTFS_FDE_KEY_LEN,
        INTEGRITY_TAG_SIZE]

/-- C6 amended witness: the theorem applied to an uninitialised (empty)
metadata device and a 192-hex-character key. -/
theorem c6_amended_first_use_detection_witness :
    (cryptfs_setup_volume_new okEnv (some "vol") (some "/dev/data") (some k192)
        (some "/dev/meta") (some []) .integrityEncrypt).initialFormat
      = (get_provided_data_sectors (some []) != 100) :=
  (c6_amended_first_use_detection k192 (some []) (by decide)).2.1

/-- C4: for every mode, a key of the mode's expected hex length passes
validation and setup proceeds to success (all external operations
succeeding); for the strict-length modes (IntegrityEncrypt,
IntegrityOnly) any other key length makes setup_volume return NULL
before any device is created (empty trace); for the non-strict modes
(AuthEnc, EncryptOnly) any key length — longer or shorter — only draws
a warning and setup proceeds. -/
theorem c4_key_length_validation (mode : Mode) (key : String)
    (hm : mode = .authenc ∨ mode = .encryptOnly ∨ mode = .integrityEncrypt
          ∨ mode = .integrityOnly) :
    (key.length = expectedHexLen mode →
      (cryptfs_setup_volume_new okEnv (some "vol") (some "/dev/data") (some key)
        (some "/dev/meta") (some []) mode).ret.isSome = true)
    ∧ (strictKeyLen mode = true → key.length ≠ expectedHexLen mode →
      cryptfs_setup_volume_new okEnv (some "vol") (some "/dev/data") (some key)
        (some "/dev/meta") (some []) mode = ⟨none, [], false⟩)
    ∧ (strictKeyLen mode = false →
      (cryptfs_setup_volume_new okEnv (some "vol") (some "/dev/data") (some key)
        (some "/dev/meta") (some []) mode).ret.isSome = true) := by
  have hp0 : get_provided_data_sectors (some []) = 0 := by decide
  rcases hm with rfl | rfl | rfl | rfl
  · refine ⟨fun h => ?_, fun h => by simp [strictKeyLen] at h, fun _ => ?_⟩
    · simp [cryptfs_setup_volume_new, validate, setupBody, okEnv, metaEff, h, hp0, expectedHexLen,
        create_integrity_blk_dev, create_crypto_blk_dev, cryptfs_write_zeros, errorExit,
        device_path, AUTHENC_HEXKEY_LEN, AUTHENC_KEY_LEN]
    · by_cases hp : 0 < key.length <;>
        simp [cryptfs_setup_volume_new, validate, setupBody, okEnv, metaEff, hp, hp0,
          create_integrity_blk_dev, create_crypto_blk_dev, cryptfs_write_zeros, errorExit,
          device_path]
  · refine ⟨fun h => ?_, fun h => by simp [strictKeyLen] at h, fun _ => ?_⟩
    · simp [cryptfs_setup_volume_new, validate, setupBody, okEnv, metaEff, h, hp0, expectedHexLen,
        create_integrity_blk_dev, create_crypto_blk_dev, cryptfs_write_zeros, errorExit,
        device_path, CRYPTO_HEXKEY_LEN, CRYPTFS_FDE_KEY_LEN]
    · by_cases hp : 0 < key.length <;>
        simp [cryptfs_setup_volume_new, validate, setupBody, okEnv, metaEff, hp, hp0,
          create_integrity_blk_dev, create_crypto_blk_dev, cryptfs_write_zeros, errorExit,
          device_path]
  · refine ⟨fun h => ?_, fun _ hne => ?_, fun h => by simp [strictKeyLen] at h⟩
    · simp [cryptfs_setup_volume_new, validate, setupBody, okEnv, metaEff, h, hp0, expectedHexLen,
        create_integrity_blk_dev, create_crypto_blk_dev, cryptfs_write_zeros, errorExit,
        device_path, CRYPTO_HEXKEY_LEN, INTEGRITY_HEXKEY_LEN, CRYPTFS_FDE_KEY_LEN,
        INTEGRITY_TAG_SIZE]
    · simp [expectedHexLen, CRYPTO_HEXKEY_LEN, INTEGRITY_HEXKEY_LEN, CRYPTFS_FDE_KEY_LEN,
        INTEGRITY_TAG_SIZE] at hne
      simp [cryptfs_setup_volume_new, validate, hne, CRYPTO_HEXKEY_LEN, INTEGRITY_HEXKEY_LEN,
        CRYPTFS_FDE_KEY_LEN, INTEGRITY_TAG_SIZE]
  · refine ⟨fun h => ?_, fun _ hne => ?_, fun h => by simp [strictKeyLen] at h⟩
    · simp [cryptfs_setup_volume_new, validate, setupBody, okEnv, metaEff, h, hp0, expectedHexLen,
        create_integrity_blk_dev, create_crypto_blk_dev, cryptfs_write_zeros, errorExit,
        device_path, INTEGRITY_HEXKEY_LEN, INTEGRITY_TAG_SIZE]
    · simp [expectedHexLen, INTEGRITY_HEXKEY_LEN, INTEGRITY_TAG_SIZE] at hne
      simp [cryptfs_setup_volume_new, validate, hne, INTEGRITY_HEXKEY_LEN, INTEGRITY_TAG_SIZE]

/-- C4 witness: an IntegrityOnly setup with the expected 64-hex key
succeeds, and the same call with a 65-hex key (one longer) is rejected
with nothing created. -/
theorem c4_key_length_validation_witness :
    (cryptfs_setup_volume_new okEnv (some "vol") (some "/dev/data") (some k64)
      (some "/dev/meta") (some []) .integrityOnly).ret.isSome = true
    ∧ cryptfs_setup_volume_new okEnv (some "vol") (some "/dev/data")
        (some (String.mk (List.replicate 65 'a'))) (some "/dev/meta") (some [])
        .integrityOnly = ⟨none, [], false⟩ :=
  ⟨(c4_key_length_validation .integrityOnly k64 (by simp)).1 (by decide),
   (c4_key_length_validation .integrityOnly (String.mk (List.replicate 65 'a'))
      (by simp)).2.1 (by decide) (by decide)⟩

/-- C8: for every valid mode, delete_volume removes the crypt device
`<name>` first (when the mode has encryption) and then the integrity
device `<name>-integrity` (when the mode has integrity), and when each
underlying `DM_DEV_REMOVE` either succeeds or fails with ENXIO (device
not present), delete_volume returns 0 — cleanup tolerates missing
devices and is idempotent. -/
theorem c8_delete_order_and_tolerance (mode : Mode) (name : String)
    (rm : String → Option Nat) (e i : Bool)
    (hm : mode_delete_flags mode = some (e, i))
    (hrm : ∀ n, rm n = none ∨ rm n = some ENXIO) :
    cryptfs_delete_blk_dev true rm name mode
      = (0, (if e then [name] else []) ++ (if i then [name ++ "-integrity"] else [])) := by
  unfold cryptfs_delete_blk_dev
  rw [hm]
  rcases hrm name with h1 | h1 <;> rcases hrm (name ++ "-integrity") with h2 | h2 <;>
    cases e <;> cases i <;>
    simp [delete_crypto_blk_dev, delete_integrity_blk_dev, h1, h2, ENXIO]

/-- C8 witness: IntegrityEncrypt teardown where both devices are already
absent (every remove fails with ENXIO) still returns 0 and attempted the
removes in order crypt first, then `<name>-integrity`. -/
theorem c8_delete_order_and_tolerance_witness :
    cryptfs_delete_blk_dev true (fun _ => some ENXIO) "x" .integrityEncrypt
      = (0, ["x", "x-integrity"]) := by
  have h := c8_delete_order_and_tolerance .integrityEncrypt "x" (fun _ => some ENXIO)
    true true (by decide) (fun _ => Or.inr rfl)
  simpa using h

/-- C9: when a bind-file mount is declared read-only and the
`MS_REMOUNT|MS_RDONLY` second pass fails, `c_vol_mount_file_bind` only
logs the failure and still returns 0 with no unmount, so the mount can
stay writable while reported successful; `c_vol_mount_dir_bind` in the
same situation unmounts the destination and returns -1. -/
theorem c9_file_bind_ignores_remount_failure (env : FsEnv) (src dst : String) (flags : Nat)
    (hb : flags &&& MS_BIND ≠ 0) (hr : flags &&& MS_RDONLY ≠ 0)
    (h1 : env.mkdirSrcOk = true) (h2 : env.mkdirDstOk = true)
    (h3 : env.touchSrcOk = true) (h4 : env.touchDstOk = true)
    (h5 : env.mountOk = true) (h6 : env.remountOk = false) :
    c_vol_mount_file_bind env src dst flags
      = (0, [.bindMount src dst, .remountRo dst false])
    ∧ c_vol_mount_dir_bind env src dst flags
      = (-1, [.bindMount src dst, .remountRo dst false, .unmountEv dst]) := by
  constructor <;>
    simp [c_vol_mount_file_bind, c_vol_mount_dir_bind, hb, hr, h1, h2, h3, h4, h5, h6]

/-- C9 witness: the theorem applied with `MS_BIND|MS_RDONLY` flags and an
environment where only the read-only remount pass fails. -/
theorem c9_file_bind_ignores_remount_failure_witness :
    c_vol_mount_file_bind ⟨true, true, true, true, true, false, true⟩ "/src" "/dst" 4097
      = (0, [.bindMount "/src" "/dst", .remountRo "/dst" false])
    ∧ c_vol_mount_dir_bind ⟨true, true, true, true, true, false, true⟩ "/src" "/dst" 4097
      = (-1, [.bindMount "/src" "/dst", .remountRo "/dst" false, .unmountEv "/dst"]) :=
  c9_file_bind_ignores_remount_failure ⟨true, true, true, true, true, false, true⟩
    "/src" "/dst" 4097 (by decide) (by decide) rfl rfl rfl rfl rfl rfl

/-- C10: a command word matching none of the seven known commands
(case-insensitively) does not print usage and does not exit with the
usage code; it falls through to the `send_message` label, a message with
the default zero-initialised code and no response expected is sent, and
the program exits 0. -/
theorem c10_unknown_command_falls_through (command : String) (rest : List String)
    (h : knownCommands.all (fun k => !(strcaseEq command k)) = true) :
    tpm2d_control_main true true true true (command :: rest)
      = ⟨false, some (none, false), 0⟩ := by
  simp only [knownCommands, List.all_cons, List.all_nil, Bool.and_true, Bool.and_eq_true,
    Bool.not_eq_true', Bool.not_eq_eq_eq_not] at h
  obtain ⟨g1, g2, g3, g4, g5, g6, g7⟩ := h
  simp [tpm2d_control_main, send_message_model, g1, g2, g3, g4, g5, g6, g7]

/-- C10 witness: the theorem applied to the unknown command `status`. -/
theorem c10_unknown_command_falls_through_witness :
    tpm2d_control_main true true true true ["status"]
      = ⟨false, some (none, false), 0⟩ :=
  c10_unknown_command_falls_through "status" [] (by decide)

end Cml
